import Mathlib

/-!
Shallow embedding of the telemetry routing core
(`backend/app/services/mavlink_router.py`): the `TelemetryDestination`
data type with its connect/send lifecycle, the `MAVLinkRouter` session
state with its public operations (`configure`, `start`, `stop`,
`add_destination`), the reconnect cycle `_reconnect`, one iteration of
the forwarding loop `_route_messages`, and the snapshot extractor
`_parse_telemetry`.

Modelling conventions:
* Event-loop time is a natural number supplied by the environment.
* Socket handles, task handles and upstream link handles are modelled
  as `Option Nat` (an opaque identifier when present).
* Exceptions raised by the transport layer are oracles (`Bool` values
  or `Nat → Bool` tables supplied by the environment); `True` means the
  corresponding call raises.
* Python float arithmetic is modelled over `ℚ` (the conversions in the
  source divide integers by powers of ten, which is exact).
-/

/-- Embedding of `TelemetryDestination.__init__` state. -/
structure TelemetryDestination where
  name : String
  host : String
  port : Nat
  protocol : String
  socket : Option Nat
  connected : Bool
  listen_task : Option Nat
deriving Repr, DecidableEq

/-- Python's `str.lower()`, character by character. -/
def lowerStr (s : String) : String := ⟨s.data.map Char.toLower⟩

/-- A fresh destination as constructed by `TelemetryDestination.__init__`:
no socket, not connected, no listen task, protocol lower-cased. -/
def mkDestination (name host : String) (port : Nat) (protocol : String) :
    TelemetryDestination :=
  { name := name, host := host, port := port, protocol := lowerStr protocol,
    socket := none, connected := false, listen_task := none }

/-- Embedding of `TelemetryDestination.connect`.  `sockId` is the handle of
the socket the environment would create; `raises` tells whether the socket
creation / bind / connect raises.  For an unknown protocol the function
logs and returns `False` leaving the record untouched; on an exception it
sets `connected := false` and returns `False`; otherwise it stores the
socket and sets `connected := true`. -/
def TelemetryDestination.connect (d : TelemetryDestination)
    (sockId : Nat) (raises : Bool) : Bool × TelemetryDestination :=
  if d.protocol = "udp" ∨ d.protocol = "tcp" then
    if raises then (false, { d with connected := false })
    else (true, { d with socket := some sockId, connected := true })
  else
    (false, d)

/-- Embedding of `TelemetryDestination.send`.  `raises` tells whether the
underlying transport write raises.  Not connected / no socket: immediate
failure with no state change.  A raising write on a `udp`/`tcp` socket
marks the destination disconnected and fails.  Otherwise the call
returns `True` (for an unknown protocol the source performs no write and
still returns `True`, which is unreachable through the class API since
`connect` never marks an unknown protocol connected). -/
def TelemetryDestination.send (d : TelemetryDestination)
    (raises : Bool) : Bool × TelemetryDestination :=
  if ¬ d.connected ∨ d.socket = none then
    (false, d)
  else if (d.protocol = "udp" ∨ d.protocol = "tcp") ∧ raises then
    (false, { d with connected := false })
  else
    (true, d)

/-- Embedding of `TelemetryDestination.close`. -/
def TelemetryDestination.close (d : TelemetryDestination) :
    TelemetryDestination :=
  { d with socket := none, connected := false }

/-- The Telemetry Snapshot (`MAVLinkRouter.__init__`'s `self.telemetry`).
Numeric values live in `ℚ`; absent values are `none`; `armed` is a plain
boolean initialised to `false` as in the source. -/
structure Telemetry where
  altitude : Option ℚ
  groundspeed : Option ℚ
  airspeed : Option ℚ
  heading : Option ℚ
  battery_voltage : Option ℚ
  battery_current : Option ℚ
  battery_remaining : Option ℚ
  latitude : Option ℚ
  longitude : Option ℚ
  gps_fix_type : Option ℚ
  gps_satellites : Option ℚ
  mode : Option ℚ
  armed : Bool
  throttle : Option ℚ
  climb_rate : Option ℚ
deriving Repr, DecidableEq

/-- The all-`none` snapshot of `__init__`. -/
def initTelemetry : Telemetry :=
  { altitude := none, groundspeed := none, airspeed := none, heading := none,
    battery_voltage := none, battery_current := none,
    battery_remaining := none, latitude := none, longitude := none,
    gps_fix_type := none, gps_satellites := none, mode := none,
    armed := false, throttle := none, climb_rate := none }

/-- A decoded MAVLink message as seen by `_parse_telemetry`: a type tag
plus the typed field accessors the extractor uses.  A `none` field models
an accessor that raises (missing attribute / malformed message). -/
structure Msg where
  msgtype : String
  lat : Option Int
  lon : Option Int
  alt : Option Int
  hdg : Option Int
  groundspeed : Option ℚ
  airspeed : Option ℚ
  heading : Option ℚ
  throttle : Option ℚ
  climb : Option ℚ
  voltage_battery : Option Int
  current_battery : Option Int
  battery_remaining : Option Int
  fix_type : Option Nat
  satellites_visible : Option Nat
  base_mode : Option Nat
  custom_mode : Option Nat
deriving Repr, DecidableEq

/-- A message with every field accessor absent (only the type tag). -/
def bareMsg (t : String) : Msg :=
  { msgtype := t, lat := none, lon := none, alt := none, hdg := none,
    groundspeed := none, airspeed := none, heading := none, throttle := none,
    climb := none, voltage_battery := none, current_battery := none,
    battery_remaining := none, fix_type := none, satellites_visible := none,
    base_mode := none, custom_mode := none }

/-- Embedding of `MAVLinkRouter._parse_telemetry`.  Each Python statement
`self.telemetry[k] = msg.f / c` is one step: if the accessor `f` raises
(`none`) the whole handler aborts there (the enclosing `try` swallows the
exception), keeping the assignments already made and leaving every other
field untouched.  Unknown message types change nothing. -/
def parseTelemetry (t : Telemetry) (m : Msg) : Telemetry :=
  if m.msgtype = "GLOBAL_POSITION_INT" then
    match m.lat with
    | none => t
    | some lat =>
      let t := { t with latitude := some ((lat : ℚ) / 10000000) }
      match m.lon with
      | none => t
      | some lon =>
        let t := { t with longitude := some ((lon : ℚ) / 10000000) }
        match m.alt with
        | none => t
        | some alt =>
          let t := { t with altitude := some ((alt : ℚ) / 1000) }
          match m.hdg with
          | none => t
          | some hdg => { t with heading := some ((hdg : ℚ) / 100) }
  else if m.msgtype = "VFR_HUD" then
    match m.groundspeed with
    | none => t
    | some gs =>
      let t := { t with groundspeed := some gs }
      match m.airspeed with
      | none => t
      | some asp =>
        let t := { t with airspeed := some asp }
        match m.heading with
        | none => t
        | some hd =>
          let t := { t with heading := some hd }
          match m.throttle with
          | none => t
          | some th =>
            let t := { t with throttle := some th }
            match m.climb with
            | none => t
            | some cl => { t with climb_rate := some cl }
  else if m.msgtype = "SYS_STATUS" then
    match m.voltage_battery with
    | none => t
    | some v =>
      let t := { t with battery_voltage := some ((v : ℚ) / 1000) }
      match m.current_battery with
      | none => t
      | some c =>
        let t := { t with battery_current := some ((c : ℚ) / 100) }
        match m.battery_remaining with
        | none => t
        | some b => { t with battery_remaining := some ((b : ℚ)) }
  else if m.msgtype = "GPS_RAW_INT" then
    match m.fix_type with
    | none => t
    | some f =>
      let t := { t with gps_fix_type := some ((f : ℚ)) }
      match m.satellites_visible with
      | none => t
      | some s => { t with gps_satellites := some ((s : ℚ)) }
  else if m.msgtype = "HEARTBEAT" then
    match m.base_mode with
    | none => t
    | some bm =>
      let t := { t with armed := decide (bm &&& 128 ≠ 0) }
      match m.custom_mode with
      | none => t
      | some cm => { t with mode := some ((cm : ℚ)) }
  else
    t


/-- The statistics block (`self.stats`).  `last_heartbeat` is the event
loop time of the most recent liveness signal, `none` before the first. -/
structure Stats where
  messages_received : Nat
  messages_forwarded : Nat
  errors : Nat
  last_heartbeat : Option Nat
deriving Repr, DecidableEq

/-- Embedding of `MAVLinkRouter` session state (`__init__`). -/
structure Router where
  serial_port : Option String
  baud_rate : Nat
  connection : Option Nat
  destinations : List TelemetryDestination
  running : Bool
  task : Option Nat
  heartbeat_received : Bool
  auto_retry : Bool
  max_retries : Nat
  retry_delay : Nat
  retry_count : Nat
  heartbeat_timeout : Nat
  stats : Stats
  telemetry : Telemetry
deriving Repr, DecidableEq

/-- The freshly constructed router of `MAVLinkRouter.__init__`. -/
def initRouter : Router :=
  { serial_port := none, baud_rate := 57600, connection := none,
    destinations := [], running := false, task := none,
    heartbeat_received := false, auto_retry := true, max_retries := 10,
    retry_delay := 5, retry_count := 0, heartbeat_timeout := 10,
    stats := { messages_received := 0, messages_forwarded := 0,
               errors := 0, last_heartbeat := none },
    telemetry := initTelemetry }

/-- Result statuses of the public API operations. -/
inductive ApiStatus where
  | ok : ApiStatus
  | error : ApiStatus
deriving Repr, DecidableEq

/-- Embedding of `MAVLinkRouter.configure`: stores the serial parameters.
(The source's `try` body cannot raise: `dict.get` is total.) -/
def Router.configure (r : Router) (sp : String) (br : Nat) :
    ApiStatus × Router :=
  (.ok, { r with serial_port := some sp, baud_rate := br })

/-- Embedding of `MAVLinkRouter.add_destination`.  `sockId`/`connectRaises`
feed the new destination's `connect`; `taskId` is the listen task handle
created when the router is already running. -/
def Router.add_destination (r : Router) (name host : String) (port : Nat)
    (protocol : String) (sockId : Nat) (connectRaises : Bool)
    (taskId : Nat) : ApiStatus × Router :=
  if r.destinations.any (fun d => d.name = name) then
    (.error, r)
  else
    let c := (mkDestination name host port protocol).connect sockId connectRaises
    if c.1 then
      let d := if r.running then { c.2 with listen_task := some taskId } else c.2
      (.ok, { r with destinations := r.destinations ++ [d] })
    else
      (.error, r)

/-- Embedding of `MAVLinkRouter.stop`: fails when not running; otherwise
clears `running`, cancels the routing task, closes and clears the
upstream link, cancels every listen task, closes every destination
socket, and clears `heartbeat_received`. -/
def Router.stop (r : Router) : ApiStatus × Router :=
  if ¬ r.running then
    (.error, r)
  else
    (.ok, { r with
            running := false, task := none, connection := none,
            destinations := r.destinations.map
              (fun d => { d with
                          listen_task := none, socket := none,
                          connected := false }),
            heartbeat_received := false })

/-- Environment for one reconnect cycle (`_reconnect`): whether opening
the link raises, the fresh link handle, the time at which a heartbeat is
seen during the bounded poll (`none` when none arrives before the
timeout), and per-destination-index oracles for the destination
reconnects and the fresh listen task handles. -/
structure ReconnEnv where
  openRaises : Bool
  connId : Nat
  hbTime : Option Nat
  destSock : Nat → Nat
  destRaises : Nat → Bool
  destTask : Nat → Nat

/-- Embedding of `MAVLinkRouter._reconnect`: close the old link, cancel
all destination listen tasks, reopen the link, poll for a heartbeat;
on success reconnect disconnected destinations and relaunch their listen
tasks; on any failure close and clear the link and return `False`. -/
def Router.reconnect (r : Router) (e : ReconnEnv) : Bool × Router :=
  let r1 := { r with
              connection := none,
              destinations := r.destinations.map
                (fun d => { d with listen_task := none }) }
  if e.openRaises then
    (false, r1)
  else
    match e.hbTime with
    | none => (false, { r1 with connection := none })
    | some t =>
      let r2 := { r1 with
                  connection := some e.connId,
                  heartbeat_received := true,
                  stats := { r1.stats with last_heartbeat := some t } }
      (true, { r2 with
          destinations := r2.destinations.mapIdx
            (fun i d =>
              let d1 := if ¬ d.connected then
                  (d.connect (e.destSock i) (e.destRaises i)).2
                else d
              { d1 with listen_task := some (e.destTask i) }) })

/-- Environment for one `start` call: whether opening the link raises,
the fresh link handle, the time at which the initial heartbeat poll sees
a message (`none` when none arrives within the timeout), the
per-destination reconnect oracles, the listen task handles, and the
routing task handle. -/
structure StartEnv where
  openRaises : Bool
  connId : Nat
  hbTime : Option Nat
  destSock : Nat → Nat
  destRaises : Nat → Bool
  destTask : Nat → Nat
  routeTask : Nat

/-- Embedding of `MAVLinkRouter.start`.  Fails when already running or
unconfigured.  Opens the link; polls for an initial heartbeat only while
`heartbeat_received` is false (the `while not self.heartbeat_received`
guard), raising `TimeoutError` when none arrives within the timeout; the
`except` clause sets `running := false` and closes/clears the link.  On
success it reconnects disconnected destinations, launches listen tasks,
sets `running := true`, resets `retry_count` and launches the routing
task. -/
def Router.start (r : Router) (e : StartEnv) : ApiStatus × Router :=
  if r.running then
    (.error, r)
  else if r.serial_port = none then
    (.error, r)
  else if e.openRaises then
    (.error, { r with running := false, connection := none })
  else
    let seen : Bool × Stats :=
      if r.heartbeat_received then (true, r.stats)
      else
        match e.hbTime with
        | some t => (true, { r.stats with last_heartbeat := some t })
        | none => (false, r.stats)
    if seen.1 then
      (.ok, { r with
              connection := some e.connId,
              heartbeat_received := true, stats := seen.2,
              destinations := r.destinations.mapIdx
                (fun i d =>
                  let d1 := if ¬ d.connected then
                      (d.connect (e.destSock i) (e.destRaises i)).2
                    else d
                  { d1 with listen_task := some (e.destTask i) }),
              running := true, retry_count := 0,
              task := some e.routeTask })
    else
      (.error, { r with running := false, connection := none })

/-- Per-message environment inside the drain step of `_route_messages`:
the decoded message, the event loop time at which it is processed, a
per-destination-index oracle `raises` for the forwarding sends, and the
oracles for the inline `dest.connect()` retried after a failed send. -/
structure MsgStep where
  msg : Msg
  now : Nat
  raises : Nat → Bool
  reSock : Nat → Nat
  reRaises : Nat → Bool

/-- The per-destination body of the forwarding `for dest in
self.destinations` loop, at destination index `i`: attempt the send; on
failure attempt an inline reconnect of that one destination.  Returns the
updated destination list together with the number of `messages_forwarded`
(successful sends) and `errors` (failed sends) increments. -/
def forwardAll (rv : Nat → Bool) (reS : Nat → Nat) (reR : Nat → Bool) :
    Nat → List TelemetryDestination →
    List TelemetryDestination × Nat × Nat
  | _, [] => ([], 0, 0)
  | i, d :: ds =>
    let s := d.send (rv i)
    let d2 := if s.1 then s.2 else (s.2.connect (reS i) (reR i)).2
    let rest := forwardAll rv reS reR (i + 1) ds
    (d2 :: rest.1,
     (if s.1 then rest.2.1 + 1 else rest.2.1),
     (if s.1 then rest.2.2 else rest.2.2 + 1))

/-- Processing of one decoded message inside the drain step: increment
`messages_received`, parse telemetry, refresh `last_heartbeat` on a
`HEARTBEAT`, then forward the raw buffer to every destination, counting
successes into `messages_forwarded` and failures into `errors`. -/
def processMsg (r : Router) (s : MsgStep) : Router :=
  let fa := forwardAll s.raises s.reSock s.reRaises 0 r.destinations
  { r with
    telemetry := parseTelemetry r.telemetry s.msg,
    destinations := fa.1,
    stats := { messages_received := r.stats.messages_received + 1,
               messages_forwarded := r.stats.messages_forwarded + fa.2.1,
               errors := r.stats.errors + fa.2.2,
               last_heartbeat :=
                 if s.msg.msgtype = "HEARTBEAT" then some s.now
                 else r.stats.last_heartbeat } }

/-- The drain step's inner `while messages_processed < batch_size` loop
over the messages the upstream link yields, in order. -/
def processMsgs (r : Router) : List MsgStep → Router
  | [] => r
  | s :: rest => processMsgs (processMsg r s) rest

/-- The `batch_size` constant of `_route_messages`. -/
def batchSize : Nat := 10

/-- Loop-local state of `_route_messages`: the router plus the
`idle_count` counter. -/
structure LoopState where
  r : Router
  idle : Nat

/-- Environment for one iteration of the forwarding loop: the event loop
time at the liveness check, the messages `recv_match` yields this
iteration (the loop consumes at most `batch_size` of them), whether the
next `recv_match` after those raises, and the environment of the (at
most one) reconnect cycle this iteration may run. -/
structure IterEnv where
  now : Nat
  steps : List MsgStep
  drainRaises : Bool
  reconn : ReconnEnv

/-- Ghost observables of one loop iteration: how many reconnect cycles
were attempted (0 or 1), whether the attempted cycle succeeded, and
whether the iteration exited the loop (a `break`, or the `while
self.running` guard failing). -/
structure IterLog where
  attempts : Nat
  succeeded : Bool
  broke : Bool
deriving Repr, DecidableEq

/-- The guard of the liveness check in `_route_messages`: `self.auto_retry
and self.stats["last_heartbeat"] and idle_count == 0` followed by
`time_since_heartbeat > self.heartbeat_timeout`.  Python truthiness of
the stored float timestamp is `lh ≠ 0`. -/
def hbTimedOut (r : Router) (idle : Nat) (now : Nat) : Bool :=
  r.auto_retry && idle == 0 &&
    (match r.stats.last_heartbeat with
     | some lh => lh != 0 && decide ((now : Int) - (lh : Int) > (r.heartbeat_timeout : Int))
     | none => false)

/-- One iteration of the `while self.running` loop of `_route_messages`.
If `running` is already false the loop exits.  Otherwise: the liveness
check may run a reconnect cycle (resetting `retry_count` on success) or,
with retries exhausted, set `running := false` and break; else the drain
step consumes up to `batch_size` messages and, when `recv_match` raises
afterwards (only reachable when fewer than `batch_size` messages were
drained), the `except` clause counts an error and possibly runs a
reconnect cycle whose success does NOT reset `retry_count`. -/
def routeIter (s : LoopState) (e : IterEnv) : LoopState × IterLog :=
  if ¬ s.r.running then
    (s, { attempts := 0, succeeded := false, broke := true })
  else if hbTimedOut s.r s.idle e.now then
    if s.r.retry_count < s.r.max_retries then
      let r1 := { s.r with retry_count := s.r.retry_count + 1 }
      let rc := r1.reconnect e.reconn
      if rc.1 then
        ({ r := { rc.2 with retry_count := 0 }, idle := s.idle },
         { attempts := 1, succeeded := true, broke := false })
      else
        ({ r := rc.2, idle := s.idle },
         { attempts := 1, succeeded := false, broke := false })
    else
      ({ r := { s.r with running := false }, idle := s.idle },
       { attempts := 0, succeeded := false, broke := true })
  else
    let taken := e.steps.take batchSize
    let r1 := processMsgs s.r taken
    let idle1 := if taken.length > 0 then 0 else s.idle
    if e.drainRaises && e.steps.length < batchSize then
      let r2 := { r1 with stats := { r1.stats with errors := r1.stats.errors + 1 } }
      if r2.auto_retry && r2.retry_count < r2.max_retries then
        let r3 := { r2 with retry_count := r2.retry_count + 1 }
        let rc := r3.reconnect e.reconn
        ({ r := rc.2, idle := idle1 },
         { attempts := 1, succeeded := rc.1, broke := false })
      else
        ({ r := r2, idle := idle1 },
         { attempts := 0, succeeded := false, broke := false })
    else
      ({ r := r1, idle := if taken.length > 0 then 0 else s.idle + 1 },
       { attempts := 0, succeeded := false, broke := false })

/-- Constant-zero index oracle. -/
def zeroN : Nat → Nat := fun _ => 0

/-- Constant-false index oracle. -/
def falseB : Nat → Bool := fun _ => false

/-- A reconnect-cycle environment in which the link reopens but no
heartbeat arrives within the timeout (the cycle fails). -/
def failReconn : ReconnEnv :=
  { openRaises := false, connId := 2, hbTime := none,
    destSock := zeroN, destRaises := falseB, destTask := zeroN }

/-- A reconnect-cycle environment in which a heartbeat is seen at time
50 (the cycle succeeds). -/
def okReconn : ReconnEnv :=
  { openRaises := false, connId := 2, hbTime := some 50,
    destSock := zeroN, destRaises := falseB, destTask := zeroN }

/-- A `start` environment whose heartbeat poll sees nothing within the
timeout. -/
def noHbStart : StartEnv :=
  { openRaises := false, connId := 1, hbTime := none,
    destSock := zeroN, destRaises := falseB, destTask := zeroN,
    routeTask := 7 }

/-- A `start` environment whose heartbeat poll sees a message at time 1. -/
def okStart : StartEnv :=
  { noHbStart with hbTime := some 1 }

/-- A healthy mid-session router: configured, running, link open, one
heartbeat seen at time 1, default retry policy. -/
def runningRouter : Router :=
  { initRouter with
    serial_port := some "/dev/ttyACM0", connection := some 1,
    running := true, heartbeat_received := true, task := some 7,
    stats := { messages_received := 0, messages_forwarded := 0,
               errors := 0, last_heartbeat := some 1 } }

/-- Number of indices `i0 ≤ i < i0 + n` at which `c` holds. -/
def countTrue (c : Nat → Bool) : Nat → Nat → Nat
  | _, 0 => 0
  | i, n + 1 => (if c i then 1 else 0) + countTrue c (i + 1) n

/-- Fallback destination for `List.getD` indexing. -/
def dummyDest : TelemetryDestination := mkDestination "" "" 0 "udp"

/-- A drain-step message environment whose message type is outside the
known set and whose sends never fail. -/
def demoStep : MsgStep :=
  { msg := bareMsg "ATTITUDE", now := 3, raises := falseB,
    reSock := zeroN, reRaises := falseB }

/-- A forwarding-loop iteration environment at time `t` with a silent
link (no messages, no drain exception) and a failing reconnect cycle. -/
def quietIter (t : Nat) : IterEnv :=
  { now := t, steps := [], drainRaises := false, reconn := failReconn }

/-- The router after: construction, `configure`, a successful `start`
(heartbeat at time 1), and eleven forwarding-loop iterations at time 100
with every reconnect failing — ten failed retries followed by the
terminal halt.  `running` is false but `heartbeat_received` is still
true (only `stop` clears it). -/
def haltedRouter : Router :=
  ((List.range 11).foldl
    (fun s _ => (routeIter s (quietIter 100)).1)
    { r := (((initRouter.configure "/dev/ttyACM0" 57600).2).start okStart).2,
      idle := 0 }).r

/-- A delivering destination: connected UDP socket. -/
def wGood : TelemetryDestination :=
  { mkDestination "good" "10.0.0.2" 14550 "udp" with
    socket := some 1, connected := true }

/-- A failing destination: connected UDP socket whose writes raise. -/
def wBad : TelemetryDestination :=
  { mkDestination "bad" "10.0.0.3" 14551 "udp" with
    socket := some 2, connected := true }

/-- A running router with one delivering and one failing destination. -/
def wRouter : Router :=
  { runningRouter with destinations := [wGood, wBad] }

/-- A drain-step message whose send raises exactly at destination 1. -/
def wStep : MsgStep :=
  { msg := bareMsg "ATTITUDE", now := 3, raises := fun i => i == 1,
    reSock := zeroN, reRaises := falseB }

/-- Two such messages. -/
def wSteps : List MsgStep := [wStep, wStep]

/-- Classification: destination 0 delivers, the rest fail. -/
def wc : Nat → Bool := fun i => i == 0

theorem countTrue_le (c : Nat → Bool) : ∀ (n i : Nat), countTrue c i n ≤ n := by
  intro n
  induction n with
  | zero => intro i; simp [countTrue]
  | succ k ih =>
    intro i
    have h := ih (i + 1)
    by_cases hc : c i <;> simp [countTrue, hc] <;> omega

theorem send_protocol (d : TelemetryDestination) (rv : Bool) :
    (d.send rv).2.protocol = d.protocol := by
  unfold TelemetryDestination.send
  split
  · rfl
  · split <;> rfl

theorem connect_protocol (d : TelemetryDestination) (sid : Nat) (rb : Bool) :
    (d.connect sid rb).2.protocol = d.protocol := by
  unfold TelemetryDestination.connect
  split
  · split <;> rfl
  · rfl

theorem send_good (d : TelemetryDestination)
    (hc : d.connected = true) (hs : d.socket ≠ none) :
    d.send false = (true, d) := by
  unfold TelemetryDestination.send
  rw [if_neg, if_neg]
  · simp
  · simp [hc, hs]

theorem send_bad (d : TelemetryDestination)
    (hp : d.protocol = "udp" ∨ d.protocol = "tcp") :
    (d.send true).1 = false := by
  unfold TelemetryDestination.send
  by_cases h1 : ¬ d.connected = true ∨ d.socket = none
  · rw [if_pos h1]
  · rw [if_neg h1, if_pos ⟨hp, rfl⟩]

/-- C8: `Destination.send` never raises to its caller: it is a total
boolean-returning function; when the destination is not connected or has
no socket it fails with no state change; when the transport write raises
it marks the destination disconnected and fails; on a successful write
it succeeds and leaves `connected` true. -/
theorem c8_send_contract (d : TelemetryDestination) (raises : Bool) :
    ((d.connected = false ∨ d.socket = none) → d.send raises = (false, d)) ∧
    (d.connected = true → d.socket ≠ none →
      (d.protocol = "udp" ∨ d.protocol = "tcp") → raises = true →
      d.send raises = (false, { d with connected := false })) ∧
    (d.connected = true → d.socket ≠ none →
      (d.protocol = "udp" ∨ d.protocol = "tcp") → raises = false →
      d.send raises = (true, d) ∧ (d.send raises).2.connected = true) := by
  refine ⟨?_, ?_, ?_⟩
  · intro h
    unfold TelemetryDestination.send
    rw [if_pos]
    rcases h with h | h
    · exact Or.inl (by simp [h])
    · exact Or.inr h
  · intro hc hs hp hr
    subst hr
    unfold TelemetryDestination.send
    rw [if_neg (by simp [hc, hs]), if_pos ⟨hp, rfl⟩]
  · intro hc hs hp hr
    subst hr
    have h := send_good d hc hs
    exact ⟨h, by rw [h]; exact hc⟩

/-- C8 witness: a connected UDP destination whose write raises is marked
disconnected and the send reports failure. -/
theorem c8_send_contract_witness :
    ({ mkDestination "gs" "10.0.0.2" 14550 "udp" with
       socket := some 3, connected := true } : TelemetryDestination).send true
      = (false, { mkDestination "gs" "10.0.0.2" 14550 "udp" with
                  socket := some 3, connected := false }) :=
  (c8_send_contract _ true).2.1 rfl (by simp [mkDestination]) (Or.inl (by decide)) rfl


/-- C9: snapshot extraction.  Messages with a type tag outside the known
set leave every snapshot field unchanged while the message is still
counted and forwarded; the known types apply the documented unit
conversions (fixed-point 1e-7 degrees, millimetres to metres,
centidegrees to degrees, millivolts to volts, centiamps to amps, the
`base_mode & 128` armed bit); and an accessor failure mid-handler is
swallowed, keeping the assignments already made and touching no other
field. -/
theorem c9_snapshot_extraction (t : Telemetry) (m : Msg)
    (la lo al hd vb cb br : Int) (bm cm : Nat) (ft sv : Nat)
    (gs asp vh vt vc : ℚ) (r : Router) (s : MsgStep) :
    (m.msgtype ≠ "GLOBAL_POSITION_INT" → m.msgtype ≠ "VFR_HUD" →
     m.msgtype ≠ "SYS_STATUS" → m.msgtype ≠ "GPS_RAW_INT" →
     m.msgtype ≠ "HEARTBEAT" → parseTelemetry t m = t) ∧
    ((processMsg r s).stats.messages_received
        = r.stats.messages_received + 1 ∧
     (processMsg r s).destinations
        = (forwardAll s.raises s.reSock s.reRaises 0 r.destinations).1) ∧
    (m.msgtype = "GLOBAL_POSITION_INT" → m.lat = some la → m.lon = some lo →
     m.alt = some al → m.hdg = some hd →
     parseTelemetry t m
        = { t with latitude := some ((la : ℚ) / 10000000),
                   longitude := some ((lo : ℚ) / 10000000),
                   altitude := some ((al : ℚ) / 1000),
                   heading := some ((hd : ℚ) / 100) }) ∧
    (m.msgtype = "VFR_HUD" → m.groundspeed = some gs → m.airspeed = some asp →
     m.heading = some vh → m.throttle = some vt → m.climb = some vc →
     parseTelemetry t m
        = { t with groundspeed := some gs, airspeed := some asp,
                   heading := some vh, throttle := some vt,
                   climb_rate := some vc }) ∧
    (m.msgtype = "SYS_STATUS" → m.voltage_battery = some vb →
     m.current_battery = some cb → m.battery_remaining = some br →
     parseTelemetry t m
        = { t with battery_voltage := some ((vb : ℚ) / 1000),
                   battery_current := some ((cb : ℚ) / 100),
                   battery_remaining := some ((br : ℚ)) }) ∧
    (m.msgtype = "GPS_RAW_INT" → m.fix_type = some ft →
     m.satellites_visible = some sv →
     parseTelemetry t m
        = { t with gps_fix_type := some ((ft : ℚ)),
                   gps_satellites := some ((sv : ℚ)) }) ∧
    (m.msgtype = "HEARTBEAT" → m.base_mode = some bm → m.custom_mode = some cm →
     parseTelemetry t m
        = { t with armed := decide (bm &&& 128 ≠ 0),
                   mode := some ((cm : ℚ)) }) ∧
    (m.msgtype = "GLOBAL_POSITION_INT" → m.lat = some la → m.lon = none →
     parseTelemetry t m = { t with latitude := some ((la : ℚ) / 10000000) }) := by
  refine ⟨?_, ⟨?_, ?_⟩, ?_, ?_, ?_, ?_, ?_, ?_⟩
  · intro h1 h2 h3 h4 h5
    simp [parseTelemetry, h1, h2, h3, h4, h5]
  · simp [processMsg]
  · simp [processMsg]
  · intro h h1 h2 h3 h4
    simp [parseTelemetry, h, h1, h2, h3, h4]
  · intro h h1 h2 h3 h4 h5
    simp [parseTelemetry, h, h1, h2, h3, h4, h5]
  · intro h h1 h2 h3
    simp [parseTelemetry, h, h1, h2, h3]
  · intro h h1 h2
    simp [parseTelemetry, h, h1, h2]
  · intro h h1 h2
    simp [parseTelemetry, h, h1, h2]
  · intro h h1 h2
    simp [parseTelemetry, h, h1, h2]

/-- C9 witness: a complete `GLOBAL_POSITION_INT` updates exactly the four
position fields with the documented conversions. -/
theorem c9_snapshot_extraction_witness :
    parseTelemetry initTelemetry
        { bareMsg "GLOBAL_POSITION_INT" with
          lat := some 475066270, lon := some 84095620,
          alt := some 123456, hdg := some 9000 }
      = { initTelemetry with
          latitude := some ((475066270 : ℚ) / 10000000),
          longitude := some ((84095620 : ℚ) / 10000000),
          altitude := some ((123456 : ℚ) / 1000),
          heading := some ((9000 : ℚ) / 100) } :=
  (c9_snapshot_extraction initTelemetry _ 475066270 84095620 123456 9000
      0 0 0 0 0 0 0 0 0 0 0 0 runningRouter demoStep).2.2.1
    rfl rfl rfl rfl rfl

/-- C7: destination-name uniqueness at add time.  Adding under a name
already present returns an error and leaves the router unchanged; after
a successful add of name `n`, adding `n` again fails and exactly one
destination named `n` is in the set. -/
theorem c7_add_duplicate (r : Router)
    (n host host2 protocol protocol2 : String)
    (port port2 sock sock2 task task2 : Nat) (raises2 : Bool) :
    (r.destinations.any (fun d => d.name = n) = true →
      r.add_destination n host2 port2 protocol2 sock2 raises2 task2
        = (.error, r)) ∧
    (r.destinations.any (fun d => d.name = n) = false →
      (lowerStr protocol = "udp" ∨ lowerStr protocol = "tcp") →
      (r.add_destination n host port protocol sock false task).1 = .ok ∧
      (((r.add_destination n host port protocol sock false task).2).add_destination
          n host2 port2 protocol2 sock2 raises2 task2
        = (.error, (r.add_destination n host port protocol sock false task).2)) ∧
      ((r.add_destination n host port protocol sock false task).2).destinations.countP
          (fun d => d.name = n) = 1) := by
  constructor
  · intro h
    unfold Router.add_destination
    rw [if_pos h]
  · intro h hp
    have hc : ((mkDestination n host port protocol).connect sock false)
        = (true, { mkDestination n host port protocol with
                   socket := some sock, connected := true }) := by
      unfold TelemetryDestination.connect
      rw [if_pos (by simpa [mkDestination] using hp), if_neg (by simp)]
    have hr1 : r.add_destination n host port protocol sock false task
        = (.ok, { r with destinations := r.destinations ++
            [if r.running then
                { mkDestination n host port protocol with
                  socket := some sock, connected := true, listen_task := some task }
              else
                { mkDestination n host port protocol with
                  socket := some sock, connected := true }] }) := by
      unfold Router.add_destination
      rw [if_neg (by simp [h]), hc]
      by_cases hrun : r.running <;> simp [hrun]
    have hzero : r.destinations.countP (fun d => decide (d.name = n)) = 0 := by
      rw [List.countP_eq_zero]
      intro d hd
      have := (List.any_eq_false).1 h d hd
      simpa using this
    rw [hr1]
    refine ⟨rfl, ?_, ?_⟩
    · unfold Router.add_destination
      rw [if_pos]
      rw [List.any_append]
      by_cases hrun : r.running <;> simp [hrun, mkDestination]
    · rw [List.countP_append]
      by_cases hrun : r.running <;>
        simp [hrun, mkDestination, hzero, List.countP_cons]

/-- C7 witness: adding `"x"` twice on a fresh router leaves exactly one
destination named `"x"` and fails the second call. -/
theorem c7_add_duplicate_witness :
    (initRouter.destinations.any (fun d => d.name = "x") = false ∧
     lowerStr "udp" = "udp") ∧
    ((initRouter.add_destination "x" "10.0.0.2" 14550 "udp" 3 false 9).1 = .ok ∧
     (((initRouter.add_destination "x" "10.0.0.2" 14550 "udp" 3 false 9).2).add_destination
         "x" "10.0.0.3" 14551 "tcp" 4 false 10
       = (.error, (initRouter.add_destination "x" "10.0.0.2" 14550 "udp" 3 false 9).2)) ∧
     ((initRouter.add_destination "x" "10.0.0.2" 14550 "udp" 3 false 9).2).destinations.countP
         (fun d => d.name = "x") = 1) :=
  ⟨⟨by decide, by decide⟩,
   (c7_add_duplicate initRouter "x" "10.0.0.2" "10.0.0.3" "udp" "tcp"
      14550 14551 3 4 9 10 false).2 (by decide) (Or.inl (by decide))⟩

/-- C10: atomicity of a failed add.  When the freshly constructed
destination's initial `connect` fails — in particular for any
unrecognized protocol kind — `add_destination` returns an error and the
router (destination set included) is unchanged, so no reverse-listen
task is launched. -/
theorem c10_add_failed_connect (r : Router) (n host protocol : String)
    (port sock task : Nat) (raises : Bool)
    (hdup : r.destinations.any (fun d => d.name = n) = false) :
    (((mkDestination n host port protocol).connect sock raises).1 = false →
      r.add_destination n host port protocol sock raises task = (.error, r)) ∧
    (lowerStr protocol ≠ "udp" → lowerStr protocol ≠ "tcp" →
      ((mkDestination n host port protocol).connect sock raises).1 = false) := by
  constructor
  · intro hfail
    unfold Router.add_destination
    rw [if_neg (by simp [hdup])]
    simp only [hfail]
    rfl
  · intro h1 h2
    unfold TelemetryDestination.connect
    rw [if_neg (by simp [mkDestination, h1, h2])]

/-- C10 witness: adding a destination with protocol `"serial"` fails and
leaves the fresh router unchanged. -/
theorem c10_add_failed_connect_witness :
    initRouter.destinations.any (fun d => d.name = "gs") = false ∧
    initRouter.add_destination "gs" "10.0.0.2" 14550 "serial" 3 false 9
      = (.error, initRouter) :=
  ⟨by decide,
   (c10_add_failed_connect initRouter "gs" "10.0.0.2" "serial" 14550 3 9 false
      (by decide)).1
     ((c10_add_failed_connect initRouter "gs" "10.0.0.2" "serial" 14550 3 9 false
      (by decide)).2 (by decide) (by decide))⟩

/-- C6 counterexample: the claim says a failed reconnect cycle leaves
every Destination's listen task the same still-scheduled task it was
before the cycle.  In the code `_reconnect` cancels and clears all
listen tasks at the start of the cycle and does not restore them on
failure: a destination entering with task 5 leaves with no task. -/
theorem c6_counterexample :
    (({ runningRouter with
        destinations := [{ mkDestination "gcs" "10.0.0.2" 14550 "udp" with
                           socket := some 3, connected := true,
                           listen_task := some 5 }] } : Router).reconnect
        failReconn).1 = false ∧
    ({ runningRouter with
       destinations := [{ mkDestination "gcs" "10.0.0.2" 14550 "udp" with
                          socket := some 3, connected := true,
                          listen_task := some 5 }] } : Router).destinations.map
        (fun d => d.listen_task) = [some 5] ∧
    (({ runningRouter with
        destinations := [{ mkDestination "gcs" "10.0.0.2" 14550 "udp" with
                           socket := some 3, connected := true,
                           listen_task := some 5 }] } : Router).reconnect
        failReconn).2.destinations.map (fun d => d.listen_task) = [none] := by
  decide

/-- C6 amended: whenever the reconnect cycle returns failure it has
closed and cleared the upstream link handle and left the `running` flag
untouched; every Destination's listen task, however, was cancelled and
cleared at the start of the cycle and is not restored on failure, so
afterwards each destination is its old record with `listen_task = None`
(not the still-scheduled pre-cycle task). -/
theorem c6_reconnect_failure_frame (r : Router) (e : ReconnEnv)
    (h : (r.reconnect e).1 = false) :
    (r.reconnect e).2.running = r.running ∧
    (r.reconnect e).2.connection = none ∧
    (r.reconnect e).2.destinations
      = r.destinations.map (fun d => { d with listen_task := none }) := by
  unfold Router.reconnect at h ⊢
  by_cases ho : e.openRaises
  · simp [ho]
  · cases hh : e.hbTime with
    | none => simp [ho, hh]
    | some t => simp [ho, hh] at h

/-- C6 witness: a concrete failed cycle keeps `running` and clears the
link and the listen tasks. -/
theorem c6_reconnect_failure_frame_witness :
    (runningRouter.reconnect failReconn).1 = false ∧
    ((runningRouter.reconnect failReconn).2.running = runningRouter.running ∧
     (runningRouter.reconnect failReconn).2.connection = none ∧
     (runningRouter.reconnect failReconn).2.destinations
       = runningRouter.destinations.map (fun d => { d with listen_task := none })) :=
  ⟨by decide, c6_reconnect_failure_frame runningRouter failReconn (by decide)⟩



/-- C4 counterexample: from the reachable state `haltedRouter`
(retries exhausted, never stopped), `start` is called in an environment
in which no liveness signal at all arrives within `heartbeat_timeout`
(`noHbStart`), yet it returns success and sets `running := true` —
because the initial-heartbeat poll only runs while `heartbeat_received`
is false, and a terminal halt leaves it true.  The claim requires an
error result with `running` false here. -/
theorem c4_counterexample :
    haltedRouter.running = false ∧
    haltedRouter.heartbeat_received = true ∧
    noHbStart.hbTime = none ∧
    (haltedRouter.start noHbStart).1 = .ok ∧
    (haltedRouter.start noHbStart).2.running = true := by
  decide

/-- C4 amended: `start` fails when already running or unconfigured, and
— provided `heartbeat_received` is false at entry, as it is after
construction or after `stop` — it fails atomically on liveness timeout:
when no signal arrives within `heartbeat_timeout` of opening the link,
`start` returns an error, `running` remains false and the link handle is
closed and cleared.  When `heartbeat_received` is still true from an
earlier session (cleared only by `stop`), the poll is skipped and
`start` can succeed without any fresh signal. -/
theorem c4_start_failure_atomic (r : Router) (e : StartEnv) :
    (r.running = true → r.start e = (.error, r)) ∧
    (r.running = false → r.serial_port = none → r.start e = (.error, r)) ∧
    (r.running = false → r.serial_port ≠ none → r.heartbeat_received = false →
      e.openRaises = false → e.hbTime = none →
      (r.start e).1 = .error ∧ (r.start e).2.running = false ∧
      (r.start e).2.connection = none) ∧
    (r.running = false → r.serial_port ≠ none → r.heartbeat_received = true →
      e.openRaises = false → (r.start e).1 = .ok) := by
  refine ⟨?_, ?_, ?_, ?_⟩
  · intro h
    unfold Router.start
    rw [if_pos h]
  · intro h hs
    unfold Router.start
    rw [if_neg (by simp [h]), if_pos hs]
  · intro h hs hh ho ht
    unfold Router.start
    rw [if_neg (by simp [h]), if_neg hs, if_neg (by simp [ho])]
    simp [hh, ht]
  · intro h hs hh ho
    unfold Router.start
    rw [if_neg (by simp [h]), if_neg hs, if_neg (by simp [ho])]
    simp [hh]

/-- C4 witness: on a configured, never-started router, `start` with no
arriving heartbeat errors out, leaves `running` false and clears the
link. -/
theorem c4_start_failure_atomic_witness :
    (((initRouter.configure "/dev/ttyACM0" 57600).2).start noHbStart).1 = .error ∧
    (((initRouter.configure "/dev/ttyACM0" 57600).2).start noHbStart).2.running = false ∧
    (((initRouter.configure "/dev/ttyACM0" 57600).2).start noHbStart).2.connection = none :=
  (c4_start_failure_atomic ((initRouter.configure "/dev/ttyACM0" 57600).2)
      noHbStart).2.2.1
    rfl (by decide) rfl rfl rfl

theorem reconnect_fields (r : Router) (e : ReconnEnv) :
    (r.reconnect e).2.running = r.running ∧
    (r.reconnect e).2.retry_count = r.retry_count ∧
    (r.reconnect e).2.auto_retry = r.auto_retry ∧
    (r.reconnect e).2.max_retries = r.max_retries := by
  unfold Router.reconnect
  by_cases ho : e.openRaises
  · simp [ho]
  · cases hh : e.hbTime <;> simp [ho, hh]

theorem reconnect_fail_conn (r : Router) (e : ReconnEnv)
    (h : (r.reconnect e).1 = false) :
    (r.reconnect e).2.connection = none := by
  unfold Router.reconnect at h ⊢
  by_cases ho : e.openRaises
  · simp [ho]
  · cases hh : e.hbTime with
    | none => simp [ho, hh]
    | some t => simp [ho, hh] at h

/-- C3 counterexample: the claim requires the upstream handle to be
present iff `running` is true at the completion of every forwarding-loop
iteration.  After an iteration whose liveness-triggered reconnect fails,
`running` is still true while the handle is absent. -/
theorem c3_counterexample :
    (routeIter { r := runningRouter, idle := 0 } (quietIter 100)).1.r.running
      = true ∧
    (routeIter { r := runningRouter, idle := 0 } (quietIter 100)).1.r.connection
      = none ∧
    (routeIter { r := runningRouter, idle := 0 } (quietIter 100)).2.broke
      = false := by
  decide

/-- C3 amended: the handle/`running` equivalence holds at the completion
of the public operations — after a successful `start` the handle is
present and `running` true; after a `stop` from a running state both are
cleared; a failed `start` from a not-running state with no handle leaves
both cleared.  Inside the forwarding loop it can be violated: an
iteration whose reconnect cycle fails ends with `running` still true and
the handle absent, and the terminal halt (retries exhausted) clears
`running` while leaving the handle as it was (absent whenever the
preceding liveness-path reconnect failure cleared it). -/
theorem c3_link_running_invariant (r : Router) (e : StartEnv)
    (s : LoopState) (e2 : IterEnv) :
    ((r.start e).1 = .ok →
      (r.start e).2.running = true ∧ (r.start e).2.connection.isSome = true) ∧
    (r.running = true →
      (r.stop).1 = .ok ∧ (r.stop).2.running = false ∧
      (r.stop).2.connection = none) ∧
    (r.running = false → r.connection = none → (r.start e).1 = .error →
      (r.start e).2.running = false ∧ (r.start e).2.connection = none) ∧
    (s.r.running = true → hbTimedOut s.r s.idle e2.now = true →
      ¬ s.r.retry_count < s.r.max_retries →
      (routeIter s e2).2.broke = true ∧
      (routeIter s e2).1.r.running = false ∧
      (routeIter s e2).1.r.connection = s.r.connection) ∧
    (s.r.running = true → hbTimedOut s.r s.idle e2.now = true →
      s.r.retry_count < s.r.max_retries →
      (routeIter s e2).2.succeeded = false →
      (routeIter s e2).1.r.running = true ∧
      (routeIter s e2).1.r.connection = none) := by
  refine ⟨?_, ?_, ?_, ?_, ?_⟩
  · intro h
    unfold Router.start at h ⊢
    by_cases h1 : r.running
    · simp [h1] at h
    · by_cases h2 : r.serial_port = none
      · simp [h1, h2] at h
      · by_cases h3 : e.openRaises
        · simp [h1, h2, h3] at h
        · by_cases h4 : r.heartbeat_received
          · simp [h1, h2, h3, h4]
          · cases h5 : e.hbTime with
            | none => simp [h1, h2, h3, h4, h5] at h
            | some t => simp [h1, h2, h3, h4, h5]
  · intro h
    unfold Router.stop
    rw [if_neg (by simp [h])]
    exact ⟨rfl, rfl, rfl⟩
  · intro h1 hc h
    unfold Router.start at h ⊢
    by_cases h2 : r.serial_port = none
    · simp [h1, h2, hc]
    · by_cases h3 : e.openRaises
      · simp [h1, h2, h3]
      · by_cases h4 : r.heartbeat_received
        · simp [h1, h2, h3, h4] at h
        · cases h5 : e.hbTime with
          | none => simp [h1, h2, h3, h4, h5]
          | some t => simp [h1, h2, h3, h4, h5] at h
  · intro h1 h2 h3
    unfold routeIter
    rw [if_neg (by simp [h1]), if_pos h2, if_neg h3]
    exact ⟨rfl, rfl, rfl⟩
  · intro h1 h2 h3 h4
    unfold routeIter at h4 ⊢
    rw [if_neg (by simp [h1]), if_pos h2, if_pos h3] at h4 ⊢
    by_cases hrc :
        (({ s.r with retry_count := s.r.retry_count + 1 } : Router).reconnect
          e2.reconn).1
    · simp [hrc] at h4
    · have hb : (({ s.r with retry_count := s.r.retry_count + 1 } : Router).reconnect
          e2.reconn).1 = false := by simpa using hrc
      have hfr := (reconnect_fields
        ({ s.r with retry_count := s.r.retry_count + 1 } : Router) e2.reconn).1
      have hconn := reconnect_fail_conn
        ({ s.r with retry_count := s.r.retry_count + 1 } : Router) e2.reconn hb
      refine ⟨?_, ?_⟩
      · simp only [hb, Bool.false_eq_true, if_false]
        rw [hfr]
        exact h1
      · simp only [hb, Bool.false_eq_true, if_false]
        exact hconn

/-- C3 witness for the amended invariant: a concrete failed-reconnect
iteration ends with `running` true and the handle absent. -/
theorem c3_link_running_invariant_witness :
    (runningRouter.running = true ∧
     hbTimedOut runningRouter 0 100 = true ∧
     ¬ runningRouter.retry_count < runningRouter.max_retries → False) ∧
    ((routeIter { r := runningRouter, idle := 0 } (quietIter 100)).1.r.running
        = true ∧
     (routeIter { r := runningRouter, idle := 0 } (quietIter 100)).1.r.connection
        = none) :=
  ⟨by decide,
   (c3_link_running_invariant runningRouter okStart
      { r := runningRouter, idle := 0 } (quietIter 100)).2.2.2.2
     rfl (by decide) (by decide) (by decide)⟩

/-- C2: evaluation of the code at the failing input.  A running router
whose last liveness signal is 99 seconds stale (timeout 10 s) with retry
budget available must, per the claim, attempt a reconnect on this
iteration.  Because the `idle_count == 0` conjunct in the source's
liveness guard fails after a single message-less iteration, the loop
with `idle_count = 1` skips the check entirely: no reconnect attempt, no
retry increment, `idle_count` keeps growing — detection IS conditional
on recent iterations producing messages.  The same state with
`idle_count = 0` does attempt the reconnect, isolating the guard as the
cause. -/
theorem c2_liveness_check_skipped_when_idle :
    ((routeIter { r := runningRouter, idle := 1 }
        { now := 100, steps := [], drainRaises := false,
          reconn := okReconn }).2.attempts = 0 ∧
     (routeIter { r := runningRouter, idle := 1 }
        { now := 100, steps := [], drainRaises := false,
          reconn := okReconn }).1.r.retry_count = 0 ∧
     (routeIter { r := runningRouter, idle := 1 }
        { now := 100, steps := [], drainRaises := false,
          reconn := okReconn }).1.r.running = true ∧
     (routeIter { r := runningRouter, idle := 1 }
        { now := 100, steps := [], drainRaises := false,
          reconn := okReconn }).1.idle = 2) ∧
    (routeIter { r := runningRouter, idle := 0 }
        { now := 100, steps := [], drainRaises := false,
          reconn := okReconn }).2.attempts = 1 := by
  decide

theorem processMsgs_policy_fields (l : List MsgStep) : ∀ (r : Router),
    (processMsgs r l).retry_count = r.retry_count ∧
    (processMsgs r l).auto_retry = r.auto_retry ∧
    (processMsgs r l).max_retries = r.max_retries ∧
    (processMsgs r l).running = r.running := by
  induction l with
  | nil => intro r; exact ⟨rfl, rfl, rfl, rfl⟩
  | cons s rest ih =>
    intro r
    have h := ih (processMsg r s)
    simpa [processMsg] using h

/-- C1 counterexample: the claim says `retry_count` is reset to 0 on
every successful reconnection inside the forwarding loop.  On the
drain-exception path the code increments `retry_count` before the
reconnect and never resets it: after a drain exception followed by a
successful reconnect cycle, `retry_count` is 1, not 0. -/
theorem c1_counterexample :
    (routeIter { r := runningRouter, idle := 0 }
        { now := 2, steps := [], drainRaises := true,
          reconn := okReconn }).2.attempts = 1 ∧
    (routeIter { r := runningRouter, idle := 0 }
        { now := 2, steps := [], drainRaises := true,
          reconn := okReconn }).2.succeeded = true ∧
    (routeIter { r := runningRouter, idle := 0 }
        { now := 2, steps := [], drainRaises := true,
          reconn := okReconn }).1.r.retry_count = 1 := by
  decide

/-- C1 amended: `retry_count` is reset to 0 on every successful `start`
and on a successful reconnect on the liveness-timeout path, and is
incremented by exactly 1 per failed liveness-path attempt; once
`retry_count` would exceed `max_retries` the liveness-timeout path halts
permanently (`running := false`, loop exit, no attempt).  On the
drain-exception path, however, `retry_count` is incremented by 1 per
attempt whether or not the reconnect succeeds (no reset on success), and
when the budget is exhausted that path makes no reconnect attempt but
leaves `running` true and the loop spinning instead of halting. -/
theorem c1_retry_policy (s : LoopState) (e : IterEnv)
    (r : Router) (se : StartEnv) :
    ((r.start se).1 = .ok → (r.start se).2.retry_count = 0) ∧
    (s.r.running = true → hbTimedOut s.r s.idle e.now = true →
      s.r.retry_count < s.r.max_retries →
      (routeIter s e).2.attempts = 1 ∧ (routeIter s e).2.broke = false ∧
      ((routeIter s e).2.succeeded = true →
        (routeIter s e).1.r.retry_count = 0) ∧
      ((routeIter s e).2.succeeded = false →
        (routeIter s e).1.r.retry_count = s.r.retry_count + 1)) ∧
    (s.r.running = true → hbTimedOut s.r s.idle e.now = true →
      ¬ s.r.retry_count < s.r.max_retries →
      (routeIter s e).2.attempts = 0 ∧ (routeIter s e).2.broke = true ∧
      (routeIter s e).1.r.running = false) ∧
    (s.r.running = true → hbTimedOut s.r s.idle e.now = false →
      (e.drainRaises && decide (e.steps.length < batchSize)) = true →
      s.r.auto_retry = true → s.r.retry_count < s.r.max_retries →
      (routeIter s e).2.attempts = 1 ∧
      (routeIter s e).1.r.retry_count = s.r.retry_count + 1) ∧
    (s.r.running = true → hbTimedOut s.r s.idle e.now = false →
      (e.drainRaises && decide (e.steps.length < batchSize)) = true →
      ¬ s.r.retry_count < s.r.max_retries →
      (routeIter s e).2.attempts = 0 ∧ (routeIter s e).2.broke = false ∧
      (routeIter s e).1.r.running = true ∧
      (routeIter s e).1.r.retry_count = s.r.retry_count) := by
  refine ⟨?_, ?_, ?_, ?_, ?_⟩
  · intro h
    unfold Router.start at h ⊢
    by_cases h1 : r.running
    · simp [h1] at h
    · by_cases h2 : r.serial_port = none
      · simp [h1, h2] at h
      · by_cases h3 : se.openRaises
        · simp [h1, h2, h3] at h
        · by_cases h4 : r.heartbeat_received
          · simp [h1, h2, h3, h4]
          · cases h5 : se.hbTime with
            | none => simp [h1, h2, h3, h4, h5] at h
            | some t => simp [h1, h2, h3, h4, h5]
  · intro h1 h2 h3
    unfold routeIter
    rw [if_neg (by simp [h1]), if_pos h2, if_pos h3]
    have hfr := (reconnect_fields
      ({ s.r with retry_count := s.r.retry_count + 1 } : Router) e.reconn).2.1
    by_cases hb : (({ s.r with retry_count := s.r.retry_count + 1 } : Router).reconnect
        e.reconn).1
    · refine ⟨by simp [hb], by simp [hb], ?_, ?_⟩
      · intro _
        simp [hb]
      · intro hcontra
        simp [hb] at hcontra
    · have hb' : (({ s.r with retry_count := s.r.retry_count + 1 } : Router).reconnect
          e.reconn).1 = false := by simpa using hb
      refine ⟨by simp [hb'], by simp [hb'], ?_, ?_⟩
      · intro hcontra
        simp [hb'] at hcontra
      · intro _
        simp only [hb', Bool.false_eq_true, if_false]
        rw [hfr]
  · intro h1 h2 h3
    unfold routeIter
    rw [if_neg (by simp [h1]), if_pos h2, if_neg h3]
    exact ⟨rfl, rfl, rfl⟩
  · intro h1 h2 h3 h4 h5
    have hp := processMsgs_policy_fields (e.steps.take batchSize) s.r
    unfold routeIter
    rw [if_neg (by simp [h1]), if_neg (by simp [h2]), if_pos h3]
    rw [if_pos (by simp [hp.1, hp.2.1, hp.2.2.1, h4]; exact h5)]
    constructor
    · rfl
    · rw [(reconnect_fields _ e.reconn).2.1]
      simp [hp.1]
  · intro h1 h2 h3 h4
    have hp := processMsgs_policy_fields (e.steps.take batchSize) s.r
    unfold routeIter
    rw [if_neg (by simp [h1]), if_neg (by simp [h2]), if_pos h3]
    rw [if_neg (by simp [hp.1, hp.2.1, hp.2.2.1]; intro _; omega)]
    refine ⟨rfl, rfl, ?_, ?_⟩
    · simp [hp.2.2.2, h1]
    · simp [hp.1]

/-- C1 witness: on the liveness-timeout path with retry budget and a
failing reconnect environment, the iteration makes exactly one attempt,
does not break, and increments `retry_count` from 0 to 1. -/
theorem c1_retry_policy_witness :
    (runningRouter.running = true ∧
     hbTimedOut runningRouter 0 100 = true ∧
     runningRouter.retry_count < runningRouter.max_retries) ∧
    ((routeIter { r := runningRouter, idle := 0 } (quietIter 100)).2.attempts = 1 ∧
     (routeIter { r := runningRouter, idle := 0 } (quietIter 100)).2.broke = false ∧
     ((routeIter { r := runningRouter, idle := 0 } (quietIter 100)).2.succeeded = true →
       (routeIter { r := runningRouter, idle := 0 } (quietIter 100)).1.r.retry_count = 0) ∧
     ((routeIter { r := runningRouter, idle := 0 } (quietIter 100)).2.succeeded = false →
       (routeIter { r := runningRouter, idle := 0 } (quietIter 100)).1.r.retry_count
         = runningRouter.retry_count + 1)) :=
  ⟨by decide,
   (c1_retry_policy { r := runningRouter, idle := 0 } (quietIter 100)
      runningRouter noHbStart).2.1 rfl (by decide) (by decide)⟩

theorem forwardAll_classified (c : Nat → Bool) (rv : Nat → Bool)
    (reS : Nat → Nat) (reR : Nat → Bool) :
    ∀ (ds : List TelemetryDestination) (i0 : Nat),
    (∀ j, j < ds.length →
      (c (i0 + j) = true → (ds.getD j dummyDest).connected = true ∧
        (ds.getD j dummyDest).socket ≠ none ∧ rv (i0 + j) = false) ∧
      (c (i0 + j) = false →
        ((ds.getD j dummyDest).protocol = "udp" ∨
         (ds.getD j dummyDest).protocol = "tcp") ∧ rv (i0 + j) = true)) →
    (forwardAll rv reS reR i0 ds).1.length = ds.length ∧
    (forwardAll rv reS reR i0 ds).2.1 = countTrue c i0 ds.length ∧
    (forwardAll rv reS reR i0 ds).2.2 = ds.length - countTrue c i0 ds.length ∧
    (∀ j, j < ds.length →
      (c (i0 + j) = true →
        (forwardAll rv reS reR i0 ds).1.getD j dummyDest
          = ds.getD j dummyDest) ∧
      (c (i0 + j) = false →
        (((forwardAll rv reS reR i0 ds).1.getD j dummyDest).protocol = "udp" ∨
         ((forwardAll rv reS reR i0 ds).1.getD j dummyDest).protocol = "tcp"))) := by
  intro ds
  induction ds with
  | nil =>
    intro i0 H
    refine ⟨rfl, rfl, rfl, ?_⟩
    intro j hj
    simp at hj
  | cons d ds ih =>
    intro i0 H
    have h0 := H 0 (Nat.succ_pos _)
    simp only [Nat.add_zero, List.getD_cons_zero] at h0
    have Hs : ∀ j, j < ds.length →
        (c ((i0 + 1) + j) = true → (ds.getD j dummyDest).connected = true ∧
          (ds.getD j dummyDest).socket ≠ none ∧ rv ((i0 + 1) + j) = false) ∧
        (c ((i0 + 1) + j) = false →
          ((ds.getD j dummyDest).protocol = "udp" ∨
           (ds.getD j dummyDest).protocol = "tcp") ∧
          rv ((i0 + 1) + j) = true) := by
      intro j hj
      have hidx : (i0 + 1) + j = i0 + (j + 1) := by omega
      rw [hidx]
      exact H (j + 1) (by simpa using Nat.succ_lt_succ hj)
    have IH := ih (i0 + 1) Hs
    have hle := countTrue_le c ds.length (i0 + 1)
    by_cases hc : c i0 = true
    · obtain ⟨hcon, hsock, hrv⟩ := h0.1 (by simpa using hc)
      have hsend : d.send (rv i0) = (true, d) := by
        rw [hrv]; exact send_good d hcon hsock
      have hfa : forwardAll rv reS reR i0 (d :: ds)
          = (d :: (forwardAll rv reS reR (i0 + 1) ds).1,
             (forwardAll rv reS reR (i0 + 1) ds).2.1 + 1,
             (forwardAll rv reS reR (i0 + 1) ds).2.2) := by
        simp [forwardAll, hsend]
      rw [hfa]
      refine ⟨?_, ?_, ?_, ?_⟩
      · show (d :: (forwardAll rv reS reR (i0 + 1) ds).1).length
            = (d :: ds).length
        simp [IH.1]
      · show (forwardAll rv reS reR (i0 + 1) ds).2.1 + 1
            = countTrue c i0 (d :: ds).length
        rw [IH.2.1]
        simp only [List.length_cons, countTrue, hc, if_true]
        omega
      · show (forwardAll rv reS reR (i0 + 1) ds).2.2
            = (d :: ds).length - countTrue c i0 (d :: ds).length
        rw [IH.2.2.1]
        simp only [List.length_cons, countTrue, hc, if_true]
        omega
      · intro j hj
        cases j with
        | zero =>
          constructor
          · intro _
            rfl
          · intro hfalse
            simp [hc] at hfalse
        | succ j =>
          have hj' : j < ds.length := by simpa using Nat.lt_of_succ_lt_succ hj
          have hidx : i0 + (j + 1) = (i0 + 1) + j := by omega
          constructor
          · intro hcj
            rw [hidx] at hcj
            exact (IH.2.2.2 j hj').1 hcj
          · intro hcj
            rw [hidx] at hcj
            exact (IH.2.2.2 j hj').2 hcj
    · have hcF : c i0 = false := by simpa using hc
      obtain ⟨hp, hrv⟩ := h0.2 (by simpa using hcF)
      have hsend1 : (d.send (rv i0)).1 = false := by
        rw [hrv]; exact send_bad d hp
      have hfa : forwardAll rv reS reR i0 (d :: ds)
          = (((d.send (rv i0)).2.connect (reS i0) (reR i0)).2
               :: (forwardAll rv reS reR (i0 + 1) ds).1,
             (forwardAll rv reS reR (i0 + 1) ds).2.1,
             (forwardAll rv reS reR (i0 + 1) ds).2.2 + 1) := by
        simp [forwardAll, hsend1]
      have hproto : (((d.send (rv i0)).2.connect (reS i0) (reR i0)).2).protocol
          = d.protocol := by
        rw [connect_protocol, send_protocol]
      rw [hfa]
      refine ⟨?_, ?_, ?_, ?_⟩
      · show (((d.send (rv i0)).2.connect (reS i0) (reR i0)).2
            :: (forwardAll rv reS reR (i0 + 1) ds).1).length = (d :: ds).length
        simp [IH.1]
      · show (forwardAll rv reS reR (i0 + 1) ds).2.1
            = countTrue c i0 (d :: ds).length
        rw [IH.2.1]
        simp only [List.length_cons, countTrue, hcF, Bool.false_eq_true, if_false]
        omega
      · show (forwardAll rv reS reR (i0 + 1) ds).2.2 + 1
            = (d :: ds).length - countTrue c i0 (d :: ds).length
        rw [IH.2.2.1]
        simp only [List.length_cons, countTrue, hcF, Bool.false_eq_true, if_false]
        omega
      · intro j hj
        cases j with
        | zero =>
          constructor
          · intro htrue
            simp [hcF] at htrue
          · intro _
            rw [List.getD_cons_zero, hproto]
            exact hp
        | succ j =>
          have hj' : j < ds.length := by simpa using Nat.lt_of_succ_lt_succ hj
          have hidx : i0 + (j + 1) = (i0 + 1) + j := by omega
          constructor
          · intro hcj
            rw [hidx] at hcj
            exact (IH.2.2.2 j hj').1 hcj
          · intro hcj
            rw [hidx] at hcj
            exact (IH.2.2.2 j hj').2 hcj

/-- C5: counter accounting in the drain step.  For any sequence of N
decoded messages processed by the forwarding loop's drain step (the
no-liveness-timeout path) against a destination set in which each
destination either always delivers (connected, socket present, writes
never raise) or always fails its sends, `messages_received` grows by
exactly N, `messages_forwarded` by N times the number of delivering
destinations, and `errors` by N times the number of failing or
not-connected destinations (one per failed send). -/
theorem c5_counter_accounting (c : Nat → Bool) :
    ∀ (steps : List MsgStep) (r : Router),
    (∀ j, j < r.destinations.length →
      (c j = true → (r.destinations.getD j dummyDest).connected = true ∧
        (r.destinations.getD j dummyDest).socket ≠ none ∧
        ∀ s ∈ steps, s.raises j = false) ∧
      (c j = false →
        ((r.destinations.getD j dummyDest).protocol = "udp" ∨
         (r.destinations.getD j dummyDest).protocol = "tcp") ∧
        ∀ s ∈ steps, s.raises j = true)) →
    (processMsgs r steps).stats.messages_received
        = r.stats.messages_received + steps.length ∧
    (processMsgs r steps).stats.messages_forwarded
        = r.stats.messages_forwarded
          + steps.length * countTrue c 0 r.destinations.length ∧
    (processMsgs r steps).stats.errors
        = r.stats.errors
          + steps.length * (r.destinations.length
              - countTrue c 0 r.destinations.length) := by
  intro steps
  induction steps with
  | nil =>
    intro r H
    simp [processMsgs]
  | cons s rest ih =>
    intro r H
    have Hmsg : ∀ j, j < r.destinations.length →
        (c (0 + j) = true →
          (r.destinations.getD j dummyDest).connected = true ∧
          (r.destinations.getD j dummyDest).socket ≠ none ∧
          s.raises (0 + j) = false) ∧
        (c (0 + j) = false →
          ((r.destinations.getD j dummyDest).protocol = "udp" ∨
           (r.destinations.getD j dummyDest).protocol = "tcp") ∧
          s.raises (0 + j) = true) := by
      intro j hj
      simp only [Nat.zero_add]
      constructor
      · intro hcj
        obtain ⟨a, b, hall⟩ := (H j hj).1 hcj
        exact ⟨a, b, hall s (List.mem_cons_self _ _)⟩
      · intro hcj
        obtain ⟨a, hall⟩ := (H j hj).2 hcj
        exact ⟨a, hall s (List.mem_cons_self _ _)⟩
    have FA := forwardAll_classified c s.raises s.reSock s.reRaises
      r.destinations 0 Hmsg
    have hdest : (processMsg r s).destinations
        = (forwardAll s.raises s.reSock s.reRaises 0 r.destinations).1 := rfl
    have hlen : (processMsg r s).destinations.length
        = r.destinations.length := by
      rw [hdest, FA.1]
    have H' : ∀ j, j < (processMsg r s).destinations.length →
        (c j = true →
          ((processMsg r s).destinations.getD j dummyDest).connected = true ∧
          ((processMsg r s).destinations.getD j dummyDest).socket ≠ none ∧
          ∀ s2 ∈ rest, s2.raises j = false) ∧
        (c j = false →
          (((processMsg r s).destinations.getD j dummyDest).protocol = "udp" ∨
           ((processMsg r s).destinations.getD j dummyDest).protocol = "tcp") ∧
          ∀ s2 ∈ rest, s2.raises j = true) := by
      intro j hj
      have hj0 : j < r.destinations.length := by rw [← hlen]; exact hj
      constructor
      · intro hcj
        obtain ⟨a, b, hall⟩ := (H j hj0).1 hcj
        have heq := (FA.2.2.2 j hj0).1 (by simpa using hcj)
        rw [hdest, heq]
        exact ⟨a, b, fun s2 hs2 => hall s2 (List.mem_cons_of_mem _ hs2)⟩
      · intro hcj
        obtain ⟨a, hall⟩ := (H j hj0).2 hcj
        have hpr := (FA.2.2.2 j hj0).2 (by simpa using hcj)
        rw [hdest]
        exact ⟨hpr, fun s2 hs2 => hall s2 (List.mem_cons_of_mem _ hs2)⟩
    have IH := ih (processMsg r s) H'
    have h1 : (processMsg r s).stats.messages_received
        = r.stats.messages_received + 1 := rfl
    have h2 : (processMsg r s).stats.messages_forwarded
        = r.stats.messages_forwarded + countTrue c 0 r.destinations.length := by
      show r.stats.messages_forwarded
          + (forwardAll s.raises s.reSock s.reRaises 0 r.destinations).2.1
        = r.stats.messages_forwarded + countTrue c 0 r.destinations.length
      rw [FA.2.1]
    have h3 : (processMsg r s).stats.errors
        = r.stats.errors
          + (r.destinations.length - countTrue c 0 r.destinations.length) := by
      show r.stats.errors
          + (forwardAll s.raises s.reSock s.reRaises 0 r.destinations).2.2
        = r.stats.errors
          + (r.destinations.length - countTrue c 0 r.destinations.length)
      rw [FA.2.2.1]
    simp only [processMsgs, List.length_cons]
    refine ⟨?_, ?_, ?_⟩
    · rw [IH.1, h1]
      omega
    · rw [IH.2.1, h2, hlen]
      ring
    · rw [IH.2.2, h3, hlen]
      ring


/-- C5 witness: two messages against one delivering and one failing
destination give received +2, forwarded +2, errors +2. -/
theorem c5_counter_accounting_witness :
    (∀ j, j < wRouter.destinations.length →
      (wc j = true → (wRouter.destinations.getD j dummyDest).connected = true ∧
        (wRouter.destinations.getD j dummyDest).socket ≠ none ∧
        ∀ s ∈ wSteps, s.raises j = false) ∧
      (wc j = false →
        ((wRouter.destinations.getD j dummyDest).protocol = "udp" ∨
         (wRouter.destinations.getD j dummyDest).protocol = "tcp") ∧
        ∀ s ∈ wSteps, s.raises j = true)) ∧
    ((processMsgs wRouter wSteps).stats.messages_received
        = wRouter.stats.messages_received + wSteps.length ∧
     (processMsgs wRouter wSteps).stats.messages_forwarded
        = wRouter.stats.messages_forwarded
          + wSteps.length * countTrue wc 0 wRouter.destinations.length ∧
     (processMsgs wRouter wSteps).stats.errors
        = wRouter.stats.errors
          + wSteps.length * (wRouter.destinations.length
              - countTrue wc 0 wRouter.destinations.length)) :=
  ⟨by decide, c5_counter_accounting wc wSteps wRouter (by decide)⟩
